import Mathlib

/-!
Verification of the sensor-fusion and AQI engine of the NITK air-quality
monitor (`app.py`, `sensor.py`).  Python floats are modelled as exact
rationals; Python's `round` (banker's rounding, half to even) is modelled
by `roundEven`; the per-channel dictionaries (`current_values`,
`history`) are modelled as association lists over string keys.
-/

/-- Python's `round` to the nearest integer: half-way cases go to the even
neighbour (banker's rounding). -/
def roundEven (q : ℚ) : ℤ :=
  if q - ⌊q⌋ < 1/2 then ⌊q⌋
  else if 1/2 < q - ⌊q⌋ then ⌊q⌋ + 1
  else if ⌊q⌋ % 2 = 0 then ⌊q⌋ else ⌊q⌋ + 1

/-- Python's `round(x, 1)`: round to one decimal place. -/
def round1 (q : ℚ) : ℚ := (roundEven (q * 10) : ℚ) / 10

/-- Arithmetic mean of a list, `sum(xs) / len(xs)` in the source. -/
def mean (l : List ℚ) : ℚ := l.sum / l.length

/-! ## AqiCalculator: `_calc_aqi_pm25`, `_calc_aqi_pm10`, `calculate_aqi`
(identical in `app.py` and `sensor.py`). Each bracket of the piecewise
EPA table is its own definition so boundary values can be compared from
both neighbouring brackets. -/

/-- Bracket [0, 12] of `_calc_aqi_pm25`: `round((50/12.0) * pm25)`. -/
def aqiPm25Seg1 (c : ℚ) : ℤ := roundEven (50/12 * c)

/-- Bracket (12, 35.4] of `_calc_aqi_pm25`. -/
def aqiPm25Seg2 (c : ℚ) : ℤ := roundEven (50 + (100-50)/(35.4-12) * (c-12))

/-- Bracket (35.4, 55.4] of `_calc_aqi_pm25`. -/
def aqiPm25Seg3 (c : ℚ) : ℤ := roundEven (100 + (150-100)/(55.4-35.4) * (c-35.4))

/-- Bracket (55.4, 150.4] of `_calc_aqi_pm25`. -/
def aqiPm25Seg4 (c : ℚ) : ℤ := roundEven (150 + (200-150)/(150.4-55.4) * (c-55.4))

/-- Bracket (150.4, 250.4] of `_calc_aqi_pm25`. -/
def aqiPm25Seg5 (c : ℚ) : ℤ := roundEven (200 + (300-200)/(250.4-150.4) * (c-150.4))

/-- Bracket above 250.4 of `_calc_aqi_pm25`, capped at 500. -/
def aqiPm25Seg6 (c : ℚ) : ℤ := min (roundEven (300 + (500-300)/(500.4-250.4) * (c-250.4))) 500

/-- `_calc_aqi_pm25` from the source. -/
def calc_aqi_pm25 (c : ℚ) : ℤ :=
  if c ≤ 12 then aqiPm25Seg1 c
  else if c ≤ 35.4 then aqiPm25Seg2 c
  else if c ≤ 55.4 then aqiPm25Seg3 c
  else if c ≤ 150.4 then aqiPm25Seg4 c
  else if c ≤ 250.4 then aqiPm25Seg5 c
  else aqiPm25Seg6 c

/-- Bracket [0, 54] of `_calc_aqi_pm10`: `round((50/54) * pm10)`. -/
def aqiPm10Seg1 (c : ℚ) : ℤ := roundEven (50/54 * c)

/-- Bracket (54, 154] of `_calc_aqi_pm10`. -/
def aqiPm10Seg2 (c : ℚ) : ℤ := roundEven (50 + (100-50)/(154-54) * (c-54))

/-- Bracket (154, 254] of `_calc_aqi_pm10`. -/
def aqiPm10Seg3 (c : ℚ) : ℤ := roundEven (100 + (150-100)/(254-154) * (c-154))

/-- Bracket (254, 354] of `_calc_aqi_pm10`. -/
def aqiPm10Seg4 (c : ℚ) : ℤ := roundEven (150 + (200-150)/(354-254) * (c-254))

/-- Bracket (354, 424] of `_calc_aqi_pm10`. -/
def aqiPm10Seg5 (c : ℚ) : ℤ := roundEven (200 + (300-200)/(424-354) * (c-354))

/-- `_calc_aqi_pm10` from the source; above 424 the table returns a flat 301. -/
def calc_aqi_pm10 (c : ℚ) : ℤ :=
  if c ≤ 54 then aqiPm10Seg1 c
  else if c ≤ 154 then aqiPm10Seg2 c
  else if c ≤ 254 then aqiPm10Seg3 c
  else if c ≤ 354 then aqiPm10Seg4 c
  else if c ≤ 424 then aqiPm10Seg5 c
  else 301

/-- `calculate_aqi` from the source: maximum of the two sub-indices. -/
def calculate_aqi (pm25 pm10 : ℚ) : ℤ :=
  max (calc_aqi_pm25 pm25) (calc_aqi_pm10 pm10)

/-- The pre-rounding piecewise-linear PM2.5 map (the argument of `round`
in each branch of `_calc_aqi_pm25`, last branch uncapped). -/
def pwPm25 (c : ℚ) : ℚ :=
  if c ≤ 12 then 50/12 * c
  else if c ≤ 35.4 then 50 + (100-50)/(35.4-12) * (c-12)
  else if c ≤ 55.4 then 100 + (150-100)/(55.4-35.4) * (c-35.4)
  else if c ≤ 150.4 then 150 + (200-150)/(150.4-55.4) * (c-55.4)
  else if c ≤ 250.4 then 200 + (300-200)/(250.4-150.4) * (c-150.4)
  else 300 + (500-300)/(500.4-250.4) * (c-250.4)

theorem roundEven_mono {a b : ℚ} (h : a ≤ b) : roundEven a ≤ roundEven b := by
  by_cases hfe : ⌊a⌋ = ⌊b⌋
  · have h1 : a - ⌊b⌋ ≤ b - ⌊b⌋ := by
      rw [← hfe]
      exact sub_le_sub_right h _
    unfold roundEven
    rw [hfe]
    split_ifs <;> first | omega | linarith
  · have hlt : ⌊a⌋ < ⌊b⌋ := lt_of_le_of_ne (Int.floor_le_floor h) hfe
    unfold roundEven
    split_ifs <;> omega

theorem roundEven_intCast (n : ℤ) : roundEven (n : ℚ) = n := by
  unfold roundEven
  rw [Int.floor_intCast]
  norm_num

theorem roundEven_le_of_le {q : ℚ} {n : ℤ} (h : q ≤ (n : ℚ)) : roundEven q ≤ n := by
  have := roundEven_mono h
  rwa [roundEven_intCast] at this

theorem pwPm25_mono {c1 c2 : ℚ} (h : c1 ≤ c2) : pwPm25 c1 ≤ pwPm25 c2 := by
  unfold pwPm25
  split_ifs <;> linarith

theorem calc_aqi_pm25_eq_min (c : ℚ) :
    calc_aqi_pm25 c = min (roundEven (pwPm25 c)) 500 := by
  unfold calc_aqi_pm25 pwPm25 aqiPm25Seg1 aqiPm25Seg2 aqiPm25Seg3 aqiPm25Seg4
    aqiPm25Seg5 aqiPm25Seg6
  split_ifs with h1 h2 h3 h4 h5
  · exact (min_eq_left (roundEven_le_of_le (by push_cast; linarith))).symm
  · exact (min_eq_left (roundEven_le_of_le (by push_cast; linarith))).symm
  · exact (min_eq_left (roundEven_le_of_le (by push_cast; linarith))).symm
  · exact (min_eq_left (roundEven_le_of_le (by push_cast; linarith))).symm
  · exact (min_eq_left (roundEven_le_of_le (by push_cast; linarith))).symm
  · rfl

theorem calc_aqi_pm25_mono {c1 c2 : ℚ} (h : c1 ≤ c2) :
    calc_aqi_pm25 c1 ≤ calc_aqi_pm25 c2 := by
  rw [calc_aqi_pm25_eq_min, calc_aqi_pm25_eq_min]
  exact min_le_min (roundEven_mono (pwPm25_mono h)) le_rfl

/-- C1 (amended): `calculate_aqi(pm25, pm10)` is the maximum of the two
sub-indices for all inputs; at the spec's example input the value is
`max(42, 37) = 42` (the PM10 sub-index of 40 is 37, not 53). -/
theorem calculate_aqi_eq_max_subindices :
    (∀ p q : ℚ, calculate_aqi p q = max (calc_aqi_pm25 p) (calc_aqi_pm10 q)) ∧
    calc_aqi_pm25 10 = 42 ∧ calc_aqi_pm10 40 = 37 ∧ calculate_aqi 10 40 = 42 := by
  refine ⟨fun p q => rfl, ?_, ?_, ?_⟩
  · norm_num [calc_aqi_pm25, aqiPm25Seg1, roundEven]
  · norm_num [calc_aqi_pm10, aqiPm10Seg1, roundEven]
  · norm_num [calculate_aqi, calc_aqi_pm25, calc_aqi_pm10, aqiPm25Seg1,
      aqiPm10Seg1, roundEven]

/-- C1 counterexample: the claim's example `calculate_aqi(10, 40) == 53`
is false; the code yields 42 because `aqi_pm10(40) = round(50/54*40) = 37`. -/
theorem calculate_aqi_example_40_counter :
    calculate_aqi 10 40 = 42 ∧ calculate_aqi 10 40 ≠ 53 := by
  constructor
  · norm_num [calculate_aqi, calc_aqi_pm25, calc_aqi_pm10, aqiPm25Seg1,
      aqiPm10Seg1, roundEven]
  · norm_num [calculate_aqi, calc_aqi_pm25, calc_aqi_pm10, aqiPm25Seg1,
      aqiPm10Seg1, roundEven]

/-- C5: for nonnegative concentrations `_calc_aqi_pm25` is non-decreasing,
and at every breakpoint boundary the two neighbouring bracket formulas
agree (12 → 50, 35.4 → 100, 55.4 → 150, 150.4 → 200, 250.4 → 300); in
particular `aqi_pm25(12.0) = 50` from either bracket. -/
theorem aqi_pm25_monotone_and_boundary :
    (∀ c1 c2 : ℚ, 0 ≤ c1 → c1 ≤ c2 → calc_aqi_pm25 c1 ≤ calc_aqi_pm25 c2) ∧
    aqiPm25Seg1 12 = 50 ∧ aqiPm25Seg2 12 = 50 ∧
    aqiPm25Seg2 35.4 = 100 ∧ aqiPm25Seg3 35.4 = 100 ∧
    aqiPm25Seg3 55.4 = 150 ∧ aqiPm25Seg4 55.4 = 150 ∧
    aqiPm25Seg4 150.4 = 200 ∧ aqiPm25Seg5 150.4 = 200 ∧
    aqiPm25Seg5 250.4 = 300 ∧ aqiPm25Seg6 250.4 = 300 ∧
    calc_aqi_pm25 12 = 50 := by
  refine ⟨fun c1 c2 _ h => calc_aqi_pm25_mono h, ?_, ?_, ?_, ?_, ?_, ?_, ?_, ?_, ?_, ?_, ?_⟩
  · norm_num [aqiPm25Seg1, roundEven]
  · norm_num [aqiPm25Seg2, roundEven]
  · norm_num [aqiPm25Seg2, roundEven]
  · norm_num [aqiPm25Seg3, roundEven]
  · norm_num [aqiPm25Seg3, roundEven]
  · norm_num [aqiPm25Seg4, roundEven]
  · norm_num [aqiPm25Seg4, roundEven]
  · norm_num [aqiPm25Seg5, roundEven]
  · norm_num [aqiPm25Seg5, roundEven]
  · norm_num [aqiPm25Seg6, roundEven]
  · norm_num [calc_aqi_pm25, aqiPm25Seg1, roundEven]

/-- C5 witness: the monotonicity part applied at the concrete pair (5, 20). -/
theorem aqi_pm25_monotone_and_boundary_witness :
    (0:ℚ) ≤ 5 ∧ (5:ℚ) ≤ 20 ∧ calc_aqi_pm25 5 ≤ calc_aqi_pm25 20 :=
  ⟨by norm_num, by norm_num,
    aqi_pm25_monotone_and_boundary.1 5 20 (by norm_num) (by norm_num)⟩

/-- C6: above 424 µg/m³ the PM10 sub-index is the constant 301, and on
(354, 424] it is the rounded linear interpolation of [200, 300]. -/
theorem aqi_pm10_flat_above_424 :
    (∀ c : ℚ, 424 < c → calc_aqi_pm10 c = 301) ∧
    (∀ c : ℚ, 354 < c → c ≤ 424 →
      calc_aqi_pm10 c = roundEven (200 + (300-200)/(424-354) * (c-354))) := by
  constructor
  · intro c hc
    unfold calc_aqi_pm10
    split_ifs <;> first | rfl | linarith
  · intro c h1 h2
    unfold calc_aqi_pm10 aqiPm10Seg5
    split_ifs <;> first | rfl | linarith

/-- C6 witness: both parts applied at concrete inputs 500 and 400
(`aqi_pm10(500) = 301`, `aqi_pm10(400) = round(200 + 100/70·46) = 266`). -/
theorem aqi_pm10_flat_above_424_witness :
    ((424:ℚ) < 500 ∧ calc_aqi_pm10 500 = 301) ∧
    ((354:ℚ) < 400 ∧ (400:ℚ) ≤ 424 ∧
      calc_aqi_pm10 400 = roundEven (200 + (300-200)/(424-354) * (400-354)) ∧
      calc_aqi_pm10 400 = 266) :=
  ⟨⟨by norm_num, aqi_pm10_flat_above_424.1 500 (by norm_num)⟩,
   by norm_num, by norm_num,
   aqi_pm10_flat_above_424.2 400 (by norm_num) (by norm_num),
   by norm_num [calc_aqi_pm10, aqiPm10Seg5, roundEven]⟩

/-! ## ReadingSmoother: the per-channel history buffer. Each cycle appends
one sample and then pops the oldest entry if the length exceeds
`buffer_size` (`self.history[key].append(v)` followed by
`self.history[key].pop(0)` when over capacity). -/

/-- One push into a capacity-`N` rolling buffer, as the source does it:
append, then pop the head if the length exceeds `N`. -/
def pushBuf (N : ℕ) (h : List ℚ) (v : ℚ) : List ℚ :=
  if N < (h ++ [v]).length then (h ++ [v]).tail else h ++ [v]

/-- A whole sequence of pushes, oldest first. -/
def pushAll (N : ℕ) (h : List ℚ) (l : List ℚ) : List ℚ :=
  l.foldl (pushBuf N) h

theorem pushAll_append (N : ℕ) (h : List ℚ) (l : List ℚ) (v : ℚ) :
    pushAll N h (l ++ [v]) = pushBuf N (pushAll N h l) v := by
  simp [pushAll, List.foldl_append]

theorem pushAll_eq_drop (N : ℕ) (hN : 0 < N) (l : List ℚ) :
    pushAll N [] l = l.drop (l.length - N) := by
  induction l using List.reverseRecOn with
  | nil => simp [pushAll]
  | append_singleton l v ih =>
    rw [pushAll_append, ih]
    by_cases hk : l.length < N
    · have h0 : l.length - N = 0 := by omega
      have h0' : l.length + 1 - N = 0 := by omega
      simp [pushBuf, h0, h0']
      omega
    · push_neg at hk
      have hlen : (l.drop (l.length - N)).length = N := by
        rw [List.length_drop]; omega
      have hcond : N < ((l.drop (l.length - N)) ++ [v]).length := by
        rw [List.length_append, hlen]; simp
      rw [pushBuf, if_pos hcond]
      obtain ⟨a, d, hd⟩ : ∃ a d, l.drop (l.length - N) = a :: d := by
        cases he : l.drop (l.length - N) with
        | nil => rw [he] at hlen; simp at hlen; omega
        | cons a d => exact ⟨a, d, rfl⟩
      have htail : (l.drop (l.length - N) ++ [v]).tail
          = l.drop (l.length - N + 1) ++ [v] := by
        rw [hd]
        simp only [List.cons_append, List.tail_cons]
        have : (l.drop (l.length - N)).tail = l.drop (l.length - N + 1) := by
          rw [List.tail_drop]
        rw [hd] at this
        simp at this
        rw [this]
      rw [htail]
      rw [List.drop_append_eq_append_drop]
      simp only [List.length_append, List.length_cons, List.length_nil]
      have h1 : l.length + (0 + 1) - N = l.length - N + 1 := by omega
      rw [h1]
      have h3 : l.length - N + 1 - l.length = 0 := by omega
      rw [h3]
      simp

/-- C7: pushing any sequence into an initially-empty capacity-`N` buffer
leaves exactly the most recent `min(count, N)` values in FIFO order, so
the length never exceeds `N` and `average()` is the arithmetic mean of
exactly those values. -/
theorem rolling_buffer_fifo_average (N : ℕ) (l : List ℚ) (hN : 0 < N) :
    pushAll N [] l = l.drop (l.length - N) ∧
    (pushAll N [] l).length = min l.length N ∧
    (pushAll N [] l).length ≤ N ∧
    mean (pushAll N [] l) = mean (l.drop (l.length - N)) := by
  have he := pushAll_eq_drop N hN l
  refine ⟨he, ?_, ?_, by rw [he]⟩
  · rw [he, List.length_drop]; omega
  · rw [he, List.length_drop]; omega

/-- C7 witness: the claim's worked example, pushes [1,2,3,4,5,6] with
N = 5 leave the buffer [2,3,4,5,6], length 5, average 4.0. -/
theorem rolling_buffer_fifo_average_witness :
    0 < 5 ∧ pushAll 5 [] [1, 2, 3, 4, 5, 6] = [2, 3, 4, 5, 6] ∧
    (pushAll 5 [] [1, 2, 3, 4, 5, 6]).length = 5 ∧
    mean [2, 3, 4, 5, 6] = 4 := by
  have h := rolling_buffer_fifo_average 5 [1, 2, 3, 4, 5, 6] (by decide)
  have he : pushAll 5 [] [1, 2, 3, 4, 5, 6] = [2, 3, 4, 5, 6] := h.1.trans (by simp)
  exact ⟨by decide, he, by simp [he], by norm_num [mean]⟩

/-! ## EnvironmentClassifier: `_detect_environment` in `app.py`.  The score
is accumulated from temperature, humidity and particulate indicators and
the indoor/outdoor state is updated with hysteresis. -/

/-- Tunable caps from `SensorManager.__init__` in `app.py`. -/
def pm25_indoor_cap : ℚ := 35

/-- PM2.5 outdoor cap from `SensorManager.__init__`. -/
def pm25_outdoor_cap : ℚ := 120

/-- PM10 indoor cap from `SensorManager.__init__`. -/
def pm10_indoor_cap : ℚ := 45

/-- PM10 outdoor cap from `SensorManager.__init__`. -/
def pm10_outdoor_cap : ℚ := 150

/-- The indoor/outdoor state of the classifier. -/
inductive EnvState where
  | indoor : EnvState
  | outdoor : EnvState
deriving DecidableEq

/-- Initial value of `self.environment_state` (`"indoor"`). -/
def initial_environment_state : EnvState := EnvState.indoor

/-- The `indoor_score` accumulation of `_detect_environment`. -/
def environment_score (temp humidity p25 p10 : ℚ) : ℤ :=
  (if 20 ≤ temp ∧ temp ≤ 27 then 3 else if 30 < temp then -2 else 0)
  + (if humidity < 65 then 2 else if 75 < humidity then -1 else 0)
  + (if p25 < pm25_indoor_cap * 0.7 ∧ p10 < pm10_indoor_cap * 0.7 then 3
     else if pm25_outdoor_cap * 0.4 < p25 ∨ pm10_outdoor_cap * 0.4 < p10 then -2
     else 0)

/-- The hysteresis update of `_detect_environment`: switch to indoor when
the score reaches 5 and the state differs, to outdoor when the score is at
most 1 and the state differs, otherwise keep the state. -/
def detect_environment_update (s : EnvState) (score : ℤ) : EnvState :=
  if 5 ≤ score ∧ s ≠ EnvState.indoor then EnvState.indoor
  else if score ≤ 1 ∧ s ≠ EnvState.outdoor then EnvState.outdoor
  else s

/-- `_detect_environment` as a whole: score the inputs, then update. -/
def detect_environment (s : EnvState) (temp humidity p25 p10 : ℚ) : EnvState :=
  detect_environment_update s (environment_score temp humidity p25 p10)

/-- C8: the classifier starts indoor; a score of at least 5 leaves the
state indoor, at most 1 leaves it outdoor, strictly between keeps it; the
score sequence [6, 6, 2, 2] started indoor stays indoor at every step. -/
theorem environment_hysteresis :
    initial_environment_state = EnvState.indoor ∧
    (∀ (s : EnvState) (k : ℤ), 5 ≤ k → detect_environment_update s k = EnvState.indoor) ∧
    (∀ (s : EnvState) (k : ℤ), k ≤ 1 → detect_environment_update s k = EnvState.outdoor) ∧
    (∀ (s : EnvState) (k : ℤ), 1 < k → k < 5 → detect_environment_update s k = s) ∧
    detect_environment_update EnvState.indoor 6 = EnvState.indoor ∧
    detect_environment_update EnvState.indoor 2 = EnvState.indoor ∧
    List.foldl detect_environment_update EnvState.indoor [6, 6, 2, 2] = EnvState.indoor := by
  refine ⟨rfl, ?_, ?_, ?_, ?_, ?_, ?_⟩
  · intro s k hk
    cases s <;> simp [detect_environment_update] <;> omega
  · intro s k hk
    cases s <;> simp [detect_environment_update] <;> omega
  · intro s k h1 h5
    cases s <;> simp [detect_environment_update] <;> omega
  · simp [detect_environment_update]
  · simp [detect_environment_update]
  · simp [detect_environment_update]

/-- C8 witness: the three quantified transition rules applied at concrete
state/score pairs (outdoor with 5, indoor with 0, indoor with 3). -/
theorem environment_hysteresis_witness :
    ((5:ℤ) ≤ 5 ∧ detect_environment_update EnvState.outdoor 5 = EnvState.indoor) ∧
    ((0:ℤ) ≤ 1 ∧ detect_environment_update EnvState.indoor 0 = EnvState.outdoor) ∧
    ((1:ℤ) < 3 ∧ (3:ℤ) < 5 ∧ detect_environment_update EnvState.indoor 3 = EnvState.indoor) :=
  ⟨⟨by decide, environment_hysteresis.2.1 EnvState.outdoor 5 (by decide)⟩,
   ⟨by decide, environment_hysteresis.2.2.1 EnvState.indoor 0 (by decide)⟩,
   ⟨by decide, by decide, environment_hysteresis.2.2.2.1 EnvState.indoor 3 (by decide) (by decide)⟩⟩

/-! ## MomentumFilter: `_apply_momentum` in `app.py`.  The engine keeps a
`current_values` dictionary that `__init__` pre-populates with all four
standard channels; `_apply_momentum` only cold-starts keys missing from
it. -/

/-- Dictionary key for the PM2.5 channel. -/
def pm25Key : String := ("pm25")

/-- Dictionary key for the PM10 channel. -/
def pm10Key : String := ("pm10")

/-- Dictionary key for the temperature channel. -/
def tempKey : String := ("temp")

/-- Dictionary key for the humidity channel. -/
def humidityKey : String := ("humidity")

/-- Dictionary lookup (`key in dict` / `dict[key]`). -/
def getVal : List (String × ℚ) → String → Option ℚ
  | [], _ => none
  | (k, v) :: rest, key => if key = k then some v else getVal rest key

/-- Dictionary write (`dict[key] = v`), updating in place or appending. -/
def setVal : List (String × ℚ) → String → ℚ → List (String × ℚ)
  | [], key, v => [(key, v)]
  | (k, w) :: rest, key, v =>
      if key = k then (k, v) :: rest else (k, w) :: setVal rest key v

/-- `self.momentum` in `app.py` (0.75). -/
def momentum : ℚ := 0.75

/-- `self.current_values` as initialized by `SensorManager.__init__` in
`app.py`: pm25 = 15.0, pm10 = 30.0, temp = 24.0, humidity = 60.0. -/
def initial_current_values : List (String × ℚ) :=
  [(pm25Key, 15), (pm10Key, 30), (tempKey, 24), (humidityKey, 60)]

/-- `_apply_momentum` from `app.py`: a missing key is initialized to the
new value unchanged; a present key is blended as
`momentum * previous + (1 - momentum) * new`.  Returns the emitted value
and the updated dictionary. -/
def apply_momentum (cv : List (String × ℚ)) (key : String) (nv : ℚ) :
    ℚ × List (String × ℚ) :=
  match getVal cv key with
  | none => (nv, setVal cv key nv)
  | some prev =>
      let s := momentum * prev + (1 - momentum) * nv
      (s, setVal cv key s)

theorem getVal_setVal (cv : List (String × ℚ)) (k : String) (v : ℚ) :
    getVal (setVal cv k v) k = some v := by
  induction cv with
  | nil => simp [getVal, setVal]
  | cons p rest ih =>
    obtain ⟨k', w⟩ := p
    by_cases h : k = k'
    · simp [getVal, setVal, h]
    · simp [getVal, setVal, h, ih]

/-- C3 (amended): only a key missing from `current_values` cold-starts to
the input unchanged (and its second application blends); the four standard
channels are pre-initialized by `__init__`, so on a fresh engine the first
`_apply_momentum('pm25', 20.0)` already blends with the stored 15.0 and
momentum 0.75, giving 16.25, and the second call with 30.0 gives 19.6875. -/
theorem momentum_cold_start_only_for_missing_key :
    (∀ (cv : List (String × ℚ)) (k : String) (v w : ℚ), getVal cv k = none →
      (apply_momentum cv k v).1 = v ∧
      (apply_momentum (apply_momentum cv k v).2 k w).1
        = momentum * v + (1 - momentum) * w) ∧
    (apply_momentum initial_current_values pm25Key 20).1 = 65/4 ∧
    (apply_momentum (apply_momentum initial_current_values pm25Key 20).2 pm25Key 30).1
      = 315/16 := by
  refine ⟨?_, ?_, ?_⟩
  · intro cv k v w hnone
    constructor
    · simp [apply_momentum, hnone]
    · simp [apply_momentum, hnone, getVal_setVal]
  · norm_num [apply_momentum, initial_current_values, getVal, momentum, pm25Key]
  · norm_num [apply_momentum, initial_current_values, getVal, setVal, momentum, pm25Key]

/-- C3 witness: the quantified part applied to the empty dictionary with a
fresh key: the first call returns 20 unchanged, the second returns
`0.75*20 + 0.25*30 = 22.5`. -/
theorem momentum_cold_start_only_for_missing_key_witness :
    getVal [] pm25Key = none ∧
    (apply_momentum [] pm25Key 20).1 = 20 ∧
    (apply_momentum (apply_momentum [] pm25Key 20).2 pm25Key 30).1
      = momentum * 20 + (1 - momentum) * 30 :=
  ⟨rfl,
   (momentum_cold_start_only_for_missing_key.1 [] pm25Key 20 30 rfl).1,
   (momentum_cold_start_only_for_missing_key.1 [] pm25Key 20 30 rfl).2⟩

/-- C3 counterexample: on a fresh engine the first momentum application
for the pm25 channel does not return the input unchanged: it returns
16.25, not 20.0, because `__init__` seeded `current_values['pm25'] = 15.0`. -/
theorem momentum_first_call_blends_counter :
    (apply_momentum initial_current_values pm25Key 20).1 = 65/4 ∧
    (apply_momentum initial_current_values pm25Key 20).1 ≠ 20 := by
  constructor
  · norm_num [apply_momentum, initial_current_values, getVal, momentum, pm25Key]
  · norm_num [apply_momentum, initial_current_values, getVal, momentum, pm25Key]

/-! ## Calibration: `_convert_duty_to_pm` and the baseline offsets of
`_read_hardware` in `app.py`.  The hard cap is applied inside the
converter, before the baseline is added by `_read_hardware`. -/

/-- `self.pm25_baseline` (8, added to all PM2.5 readings). -/
def pm25_baseline : ℚ := 8

/-- `self.pm10_baseline` (12, added to all PM10 readings). -/
def pm10_baseline : ℚ := 12

/-- `self.pm25_multiplier` (0.8). -/
def pm25_multiplier : ℚ := 0.8

/-- `self.pm10_multiplier` (1.0). -/
def pm10_multiplier : ℚ := 1.0

/-- `_convert_duty_to_pm` from `app.py` (`isPm25 = true` for the
`"pm25"` sensor type): noise floor at 3%, per-channel multiplier, hard
cap 150 / 200 — all before any baseline. -/
def convert_duty_to_pm (duty : ℚ) (isPm25 : Bool) : ℚ :=
  if duty ≤ 3 then 0
  else
    if isPm25 then min ((duty - 3) * pm25_multiplier) 150
    else min ((duty - 3) * pm10_multiplier) 200

/-- The calibrated pre-smoothing PM2.5 concentration of `_read_hardware`:
converter output plus baseline (`pm25_raw += self.pm25_baseline`). -/
def hw_presmooth_pm25 (duty : ℚ) : ℚ := convert_duty_to_pm duty true + pm25_baseline

/-- The calibrated pre-smoothing PM10 concentration of `_read_hardware`. -/
def hw_presmooth_pm10 (duty : ℚ) : ℚ := convert_duty_to_pm duty false + pm10_baseline

theorem convert_duty_to_pm_true (d : ℚ) :
    convert_duty_to_pm d true
      = if d ≤ 3 then 0 else min ((d - 3) * pm25_multiplier) 150 := by
  unfold convert_duty_to_pm
  simp

theorem convert_duty_to_pm_false (d : ℚ) :
    convert_duty_to_pm d false
      = if d ≤ 3 then 0 else min ((d - 3) * pm10_multiplier) 200 := by
  unfold convert_duty_to_pm
  simp

/-- C4 (amended): the noise floor zeroes only the converter output — the
pre-smoothing concentration at duty ≤ 3 equals the baseline (8 / 12), not
0 — and the hard cap is applied before the baseline, so the converter
output never exceeds 150 / 200 while the pre-smoothing concentration is
only bounded by cap + baseline (158 / 212). -/
theorem duty_conversion_cap_before_baseline :
    ∀ d : ℚ,
      (d ≤ 3 → convert_duty_to_pm d true = 0 ∧ convert_duty_to_pm d false = 0 ∧
        hw_presmooth_pm25 d = 8 ∧ hw_presmooth_pm10 d = 12) ∧
      (3 < d →
        hw_presmooth_pm25 d = min ((d - 3) * pm25_multiplier) 150 + pm25_baseline ∧
        hw_presmooth_pm10 d = min ((d - 3) * pm10_multiplier) 200 + pm10_baseline) ∧
      convert_duty_to_pm d true ≤ 150 ∧ convert_duty_to_pm d false ≤ 200 ∧
      hw_presmooth_pm25 d ≤ 158 ∧ hw_presmooth_pm10 d ≤ 212 := by
  intro d
  refine ⟨?_, ?_, ?_, ?_, ?_, ?_⟩
  · intro h
    simp [convert_duty_to_pm_true, convert_duty_to_pm_false,
      hw_presmooth_pm25, hw_presmooth_pm10, h, pm25_baseline, pm10_baseline]
  · intro h
    simp [convert_duty_to_pm_true, convert_duty_to_pm_false,
      hw_presmooth_pm25, hw_presmooth_pm10, not_le.mpr h]
  · rw [convert_duty_to_pm_true]
    split_ifs
    · norm_num
    · exact min_le_right _ _
  · rw [convert_duty_to_pm_false]
    split_ifs
    · norm_num
    · exact min_le_right _ _
  · rw [hw_presmooth_pm25, convert_duty_to_pm_true, pm25_baseline]
    split_ifs
    · norm_num
    · have := min_le_right ((d - 3) * pm25_multiplier) 150
      linarith
  · rw [hw_presmooth_pm10, convert_duty_to_pm_false, pm10_baseline]
    split_ifs
    · norm_num
    · have := min_le_right ((d - 3) * pm10_multiplier) 200
      linarith

/-- C4 witness: the theorem applied at duty 2 (inside the noise floor) and
duty 50 (above it). -/
theorem duty_conversion_cap_before_baseline_witness :
    ((2:ℚ) ≤ 3 ∧ convert_duty_to_pm 2 true = 0 ∧ convert_duty_to_pm 2 false = 0 ∧
      hw_presmooth_pm25 2 = 8 ∧ hw_presmooth_pm10 2 = 12) ∧
    ((3:ℚ) < 50 ∧
      hw_presmooth_pm25 50 = min ((50 - 3) * pm25_multiplier) 150 + pm25_baseline ∧
      hw_presmooth_pm10 50 = min ((50 - 3) * pm10_multiplier) 200 + pm10_baseline) :=
  ⟨⟨by norm_num, (duty_conversion_cap_before_baseline 2).1 (by norm_num)⟩,
   ⟨by norm_num, (duty_conversion_cap_before_baseline 50).2.1 (by norm_num)⟩⟩

/-- C4 counterexample: at duty cycle 2 (≤ 3% noise floor) the calibrated
pre-smoothing PM2.5 concentration is the baseline 8, not 0 as claimed,
because the baseline is added after the converter's zeroing and cap. -/
theorem duty_conversion_noise_floor_counter :
    hw_presmooth_pm25 2 = 8 ∧ hw_presmooth_pm25 2 ≠ 0 ∧
    hw_presmooth_pm10 2 = 12 ∧ hw_presmooth_pm10 2 ≠ 0 := by
  norm_num [hw_presmooth_pm25, hw_presmooth_pm10, convert_duty_to_pm,
    pm25_baseline, pm10_baseline]

/-! ## Ratio enforcement and the simulation read path of `app.py`. -/

/-- `self.pm10_min_ratio` (PM10 must be at least 1.3 × PM2.5). -/
def pm10RatioFloor : ℚ := 1.3

/-- `self.pm10_max_ratio` (PM10 capped at 2.5 × PM2.5). -/
def pm10RatioCeiling : ℚ := 2.5

/-- The ratio-control step of `_read_hardware`: raise PM10 to the floor or
lower it to the ceiling when outside the band. -/
def enforce_ratio_bounds (p25 p10 : ℚ) : ℚ :=
  if p10 < p25 * pm10RatioFloor then p25 * pm10RatioFloor
  else if p25 * pm10RatioCeiling < p10 then p25 * pm10RatioCeiling
  else p10

/-- C2 (amended): immediately after the ratio-control step of
`_read_hardware` the PM10 value lies in the band
[1.3 × pm25, 2.5 × pm25] for any nonnegative pm25 — but the band is not an
invariant of the emitted FusedReading (see the counterexample). -/
theorem ratio_bounds_hold_at_enforcement :
    ∀ p25 p10 : ℚ, 0 ≤ p25 →
      p25 * pm10RatioFloor ≤ enforce_ratio_bounds p25 p10 ∧
      enforce_ratio_bounds p25 p10 ≤ p25 * pm10RatioCeiling := by
  intro p25 p10 h
  unfold enforce_ratio_bounds pm10RatioFloor pm10RatioCeiling
  split_ifs <;> constructor <;> nlinarith

/-- C2 witness: the enforcement band applied at pm25 = 10, pm10 = 5 (the
raw pm10 is below the floor and gets raised into [13, 25]). -/
theorem ratio_bounds_hold_at_enforcement_witness :
    (0:ℚ) ≤ 10 ∧
    10 * pm10RatioFloor ≤ enforce_ratio_bounds 10 5 ∧
    enforce_ratio_bounds 10 5 ≤ 10 * pm10RatioCeiling :=
  ⟨by norm_num,
   (ratio_bounds_hold_at_enforcement 10 5 (by norm_num)).1,
   (ratio_bounds_hold_at_enforcement 10 5 (by norm_num)).2⟩

/-- `self.buffer_size` in `app.py` (5). -/
def buffer_size : ℕ := 5

/-- The record returned by one read cycle (pm25, pm10, temperature,
humidity, each already rounded for output). -/
structure SimReading where
  pm25 : ℚ
  pm10 : ℚ
  temperature : ℚ
  humidity : ℚ
deriving DecidableEq

/-- The mutable per-engine state used by `_read_simulation`:
`current_values` plus the four history buffers. -/
structure SimState where
  current_values : List (String × ℚ)
  history_pm25 : List ℚ
  history_pm10 : List ℚ
  history_temp : List ℚ
  history_humidity : List ℚ
deriving DecidableEq

/-- Engine state right after `SensorManager.__init__` in `app.py`. -/
def initial_sim_state : SimState := ⟨initial_current_values, [], [], [], []⟩

/-- One cycle of `_read_simulation` in `app.py`.  `indoorCycle` selects the
indoor base values (18, 30, 26, 60) or the outdoor ones (35, 65, 30, 75);
`r1..r4` are the cycle's uniform random draws (documented ranges
[-3,5], [-5,8], [-1,1], [-5,5]).  Momentum is applied per channel, the
value is pushed into the capacity-5 history, and the returned reading is
the rounded mean of each history. -/
def read_simulation (st : SimState) (indoorCycle : Bool) (r1 r2 r3 r4 : ℚ) :
    SimReading × SimState :=
  let basePm25 : ℚ := if indoorCycle then 18 else 35
  let basePm10 : ℚ := if indoorCycle then 30 else 65
  let baseTemp : ℚ := if indoorCycle then 26 else 30
  let baseHumidity : ℚ := if indoorCycle then 60 else 75
  let m1 := apply_momentum st.current_values pm25Key (basePm25 + r1)
  let m2 := apply_momentum m1.2 pm10Key (basePm10 + r2)
  let m3 := apply_momentum m2.2 tempKey (baseTemp + r3)
  let m4 := apply_momentum m3.2 humidityKey (baseHumidity + r4)
  let h25 := pushBuf buffer_size st.history_pm25 m1.1
  let h10 := pushBuf buffer_size st.history_pm10 m2.1
  let ht := pushBuf buffer_size st.history_temp m3.1
  let hh := pushBuf buffer_size st.history_humidity m4.1
  (⟨round1 (mean h25), round1 (mean h10), round1 (mean ht),
    ((roundEven (mean hh) : ℤ) : ℚ)⟩,
   ⟨m4.2, h25, h10, ht, hh⟩)

/-- A sequence of `_read_simulation` cycles, returning the final state. -/
def run_simulation (st : SimState) : List (Bool × ℚ × ℚ × ℚ × ℚ) → SimState
  | [] => st
  | (c, r1, r2, r3, r4) :: rest =>
      run_simulation (read_simulation st c r1 r2 r3 r4).2 rest

/-- Nine identical indoor cycles with draws r1 = 4 ∈ [-3,5],
r2 = -4 ∈ [-5,8], r3 = r4 = 0: the reading emitted by the ninth cycle. -/
def simCounterReading : SimReading :=
  (read_simulation
    (run_simulation initial_sim_state (List.replicate 8 (true, 4, -4, 0, 0)))
    true 4 (-4) 0 0).1


/-- C2 counterexample: the ninth simulation-path reading of a fresh engine
driven by in-range draws (indoor cycle, r1 = 4, r2 = -4) is
pm25 = 21.0, pm10 = 26.6, and 26.6 < 1.3 × 21.0 = 27.3 — the emitted
FusedReading violates pm10 ≥ pm25 × min_ratio, because the simulation path
never enforces the ratio and momentum converges toward targets whose ratio
26/22 is below 1.3. -/
theorem fused_reading_ratio_floor_counter :
    ((-3:ℚ) ≤ 4 ∧ (4:ℚ) ≤ 5) ∧ ((-5:ℚ) ≤ -4 ∧ (-4:ℚ) ≤ 8) ∧
    simCounterReading = ⟨21, 133/5, 257/10, 60⟩ ∧
    simCounterReading.pm10 < simCounterReading.pm25 * pm10RatioFloor := by
  have e1 : (read_simulation initial_sim_state true 4 (-4) 0 0).2
      = (⟨[(pm25Key, 67/4), (pm10Key, 29), (tempKey, 49/2), (humidityKey, 60)],
        [67/4],
        [29],
        [49/2],
        [60]⟩ : SimState) := by
    simp [read_simulation, apply_momentum, getVal, setVal, pushBuf,
      buffer_size, momentum, pm25Key, pm10Key, tempKey, humidityKey,
      initial_sim_state, initial_current_values]
    norm_num
  have e2 : (read_simulation (⟨[(pm25Key, 67/4), (pm10Key, 29), (tempKey, 49/2), (humidityKey, 60)],
        [67/4],
        [29],
        [49/2],
        [60]⟩ : SimState) true 4 (-4) 0 0).2
      = (⟨[(pm25Key, 289/16), (pm10Key, 113/4), (tempKey, 199/8), (humidityKey, 60)],
        [67/4, 289/16],
        [29, 113/4],
        [49/2, 199/8],
        [60, 60]⟩ : SimState) := by
    simp [read_simulation, apply_momentum, getVal, setVal, pushBuf,
      buffer_size, momentum, pm25Key, pm10Key, tempKey, humidityKey,
      initial_sim_state, initial_current_values]
    norm_num
  have e3 : (read_simulation (⟨[(pm25Key, 289/16), (pm10Key, 113/4), (tempKey, 199/8), (humidityKey, 60)],
        [67/4, 289/16],
        [29, 113/4],
        [49/2, 199/8],
        [60, 60]⟩ : SimState) true 4 (-4) 0 0).2
      = (⟨[(pm25Key, 1219/64), (pm10Key, 443/16), (tempKey, 805/32), (humidityKey, 60)],
        [67/4, 289/16, 1219/64],
        [29, 113/4, 443/16],
        [49/2, 199/8, 805/32],
        [60, 60, 60]⟩ : SimState) := by
    simp [read_simulation, apply_momentum, getVal, setVal, pushBuf,
      buffer_size, momentum, pm25Key, pm10Key, tempKey, humidityKey,
      initial_sim_state, initial_current_values]
    norm_num
  have e4 : (read_simulation (⟨[(pm25Key, 1219/64), (pm10Key, 443/16), (tempKey, 805/32), (humidityKey, 60)],
        [67/4, 289/16, 1219/64],
        [29, 113/4, 443/16],
        [49/2, 199/8, 805/32],
        [60, 60, 60]⟩ : SimState) true 4 (-4) 0 0).2
      = (⟨[(pm25Key, 5065/256), (pm10Key, 1745/64), (tempKey, 3247/128), (humidityKey, 60)],
        [67/4, 289/16, 1219/64, 5065/256],
        [29, 113/4, 443/16, 1745/64],
        [49/2, 199/8, 805/32, 3247/128],
        [60, 60, 60, 60]⟩ : SimState) := by
    simp [read_simulation, apply_momentum, getVal, setVal, pushBuf,
      buffer_size, momentum, pm25Key, pm10Key, tempKey, humidityKey,
      initial_sim_state, initial_current_values]
    norm_num
  have e5 : (read_simulation (⟨[(pm25Key, 5065/256), (pm10Key, 1745/64), (tempKey, 3247/128), (humidityKey, 60)],
        [67/4, 289/16, 1219/64, 5065/256],
        [29, 113/4, 443/16, 1745/64],
        [49/2, 199/8, 805/32, 3247/128],
        [60, 60, 60, 60]⟩ : SimState) true 4 (-4) 0 0).2
      = (⟨[(pm25Key, 20827/1024), (pm10Key, 6899/256), (tempKey, 13069/512), (humidityKey, 60)],
        [67/4, 289/16, 1219/64, 5065/256, 20827/1024],
        [29, 113/4, 443/16, 1745/64, 6899/256],
        [49/2, 199/8, 805/32, 3247/128, 13069/512],
        [60, 60, 60, 60, 60]⟩ : SimState) := by
    simp [read_simulation, apply_momentum, getVal, setVal, pushBuf,
      buffer_size, momentum, pm25Key, pm10Key, tempKey, humidityKey,
      initial_sim_state, initial_current_values]
    norm_num
  have e6 : (read_simulation (⟨[(pm25Key, 20827/1024), (pm10Key, 6899/256), (tempKey, 13069/512), (humidityKey, 60)],
        [67/4, 289/16, 1219/64, 5065/256, 20827/1024],
        [29, 113/4, 443/16, 1745/64, 6899/256],
        [49/2, 199/8, 805/32, 3247/128, 13069/512],
        [60, 60, 60, 60, 60]⟩ : SimState) true 4 (-4) 0 0).2
      = (⟨[(pm25Key, 85009/4096), (pm10Key, 27353/1024), (tempKey, 52519/2048), (humidityKey, 60)],
        [289/16, 1219/64, 5065/256, 20827/1024, 85009/4096],
        [113/4, 443/16, 1745/64, 6899/256, 27353/1024],
        [199/8, 805/32, 3247/128, 13069/512, 52519/2048],
        [60, 60, 60, 60, 60]⟩ : SimState) := by
    simp [read_simulation, apply_momentum, getVal, setVal, pushBuf,
      buffer_size, momentum, pm25Key, pm10Key, tempKey, humidityKey,
      initial_sim_state, initial_current_values]
    norm_num
  have e7 : (read_simulation (⟨[(pm25Key, 85009/4096), (pm10Key, 27353/1024), (tempKey, 52519/2048), (humidityKey, 60)],
        [289/16, 1219/64, 5065/256, 20827/1024, 85009/4096],
        [113/4, 443/16, 1745/64, 6899/256, 27353/1024],
        [199/8, 805/32, 3247/128, 13069/512, 52519/2048],
        [60, 60, 60, 60, 60]⟩ : SimState) true 4 (-4) 0 0).2
      = (⟨[(pm25Key, 345139/16384), (pm10Key, 108683/4096), (tempKey, 210805/8192), (humidityKey, 60)],
        [1219/64, 5065/256, 20827/1024, 85009/4096, 345139/16384],
        [443/16, 1745/64, 6899/256, 27353/1024, 108683/4096],
        [805/32, 3247/128, 13069/512, 52519/2048, 210805/8192],
        [60, 60, 60, 60, 60]⟩ : SimState) := by
    simp [read_simulation, apply_momentum, getVal, setVal, pushBuf,
      buffer_size, momentum, pm25Key, pm10Key, tempKey, humidityKey,
      initial_sim_state, initial_current_values]
    norm_num
  have e8 : (read_simulation (⟨[(pm25Key, 345139/16384), (pm10Key, 108683/4096), (tempKey, 210805/8192), (humidityKey, 60)],
        [1219/64, 5065/256, 20827/1024, 85009/4096, 345139/16384],
        [443/16, 1745/64, 6899/256, 27353/1024, 108683/4096],
        [805/32, 3247/128, 13069/512, 52519/2048, 210805/8192],
        [60, 60, 60, 60, 60]⟩ : SimState) true 4 (-4) 0 0).2
      = (⟨[(pm25Key, 1395865/65536), (pm10Key, 432545/16384), (tempKey, 845407/32768), (humidityKey, 60)],
        [5065/256, 20827/1024, 85009/4096, 345139/16384, 1395865/65536],
        [1745/64, 6899/256, 27353/1024, 108683/4096, 432545/16384],
        [3247/128, 13069/512, 52519/2048, 210805/8192, 845407/32768],
        [60, 60, 60, 60, 60]⟩ : SimState) := by
    simp [read_simulation, apply_momentum, getVal, setVal, pushBuf,
      buffer_size, momentum, pm25Key, pm10Key, tempKey, humidityKey,
      initial_sim_state, initial_current_values]
    norm_num
  have hrun : run_simulation initial_sim_state (List.replicate 8 (true, 4, -4, 0, 0))
      = (⟨[(pm25Key, 1395865/65536), (pm10Key, 432545/16384), (tempKey, 845407/32768), (humidityKey, 60)],
        [5065/256, 20827/1024, 85009/4096, 345139/16384, 1395865/65536],
        [1745/64, 6899/256, 27353/1024, 108683/4096, 432545/16384],
        [3247/128, 13069/512, 52519/2048, 210805/8192, 845407/32768],
        [60, 60, 60, 60, 60]⟩ : SimState) := by
    simp only [List.replicate, run_simulation, e1, e2, e3, e4, e5, e6, e7, e8]
  have e9 : (read_simulation (⟨[(pm25Key, 1395865/65536), (pm10Key, 432545/16384), (tempKey, 845407/32768), (humidityKey, 60)],
        [5065/256, 20827/1024, 85009/4096, 345139/16384, 1395865/65536],
        [1745/64, 6899/256, 27353/1024, 108683/4096, 432545/16384],
        [3247/128, 13069/512, 52519/2048, 210805/8192, 845407/32768],
        [60, 60, 60, 60, 60]⟩ : SimState) true 4 (-4) 0 0).1
      = (⟨21, 133/5, 257/10, 60⟩ : SimReading) := by
    simp [read_simulation, apply_momentum, getVal, setVal, pushBuf,
      buffer_size, momentum, pm25Key, pm10Key, tempKey, humidityKey,
      initial_sim_state, initial_current_values]
    norm_num [mean, round1, roundEven]
  have hread : simCounterReading = ⟨21, 133/5, 257/10, 60⟩ := by
    rw [simCounterReading, hrun, e9]
  refine ⟨⟨by norm_num, by norm_num⟩, ⟨by norm_num, by norm_num⟩, hread, ?_⟩
  rw [hread]
  norm_num [pm10RatioFloor]

/-! ## The `/api/collect` flow: `collect_data`, `save_simple_collection`,
`save_complete_collection` in `app.py` (database writes modelled as the
returned reading plus the list of per-point collection rows). -/

/-- Campus bounds from `app.py` (`BOUNDS`). -/
def inBounds (lat lng : ℚ) : Prop :=
  13.004 ≤ lat ∧ lat ≤ 13.018 ∧ 74.780 ≤ lng ∧ lng ≤ 74.802

instance (lat lng : ℚ) : Decidable (inBounds lat lng) := by
  unfold inBounds
  infer_instance

/-- The live `SENSOR_DATA` snapshot copied under the lock. -/
structure Snapshot where
  pm25 : ℚ
  pm10 : ℚ
  temp : ℚ
  humidity : ℚ
  aqi : ℤ
deriving DecidableEq

/-- One raw collection point supplied in `collectionData`. -/
structure CollectPoint where
  pm25 : ℚ
  pm10 : ℚ
  temperature : ℚ
  humidity : ℚ
deriving DecidableEq

/-- The row written into `readings`. -/
structure StoredReading where
  aqi : ℤ
  pm25 : ℚ
  pm10 : ℚ
  temp : ℚ
  humidity : ℚ
deriving DecidableEq

/-- Outcome of a collect request: an error response, or a stored reading
together with the `collection_data` rows written for it. -/
inductive CollectResult where
  | err : CollectResult
  | ok : StoredReading → List CollectPoint → CollectResult
deriving DecidableEq

/-- `save_simple_collection`: validate the coordinates, then store and
return the current live snapshot; writes no collection rows. -/
def save_simple_collection (snap : Snapshot) (lat lng : ℚ) : CollectResult :=
  if inBounds lat lng then
    CollectResult.ok ⟨snap.aqi, snap.pm25, snap.pm10, snap.temp, snap.humidity⟩ []
  else CollectResult.err

/-- `save_complete_collection`: an empty `collectionData` falls back to
`save_simple_collection`; otherwise each numeric field is averaged over
the points, the AQI is computed from the averaged pm25 and pm10 (falling
back to 50 when the sensor manager is not yet initialized), and every
point is written as a collection row. -/
def save_complete_collection (snap : Snapshot) (managerPresent : Bool)
    (lat lng : ℚ) (points : List CollectPoint) : CollectResult :=
  if points.isEmpty then save_simple_collection snap lat lng
  else
    let n : ℚ := points.length
    let a25 := (points.map (fun p => p.pm25)).sum / n
    let a10 := (points.map (fun p => p.pm10)).sum / n
    let aTemp := (points.map (fun p => p.temperature)).sum / n
    let aHum := (points.map (fun p => p.humidity)).sum / n
    let aqi : ℤ := if managerPresent then calculate_aqi a25 a10 else 50
    CollectResult.ok ⟨aqi, a25, a10, aTemp, aHum⟩ points

/-- `collect_data`: requests without a `collectionData` field go to
`save_simple_collection`, requests carrying one go to
`save_complete_collection`. -/
def collect_data (snap : Snapshot) (managerPresent : Bool) (lat lng : ℚ) :
    Option (List CollectPoint) → CollectResult
  | none => save_simple_collection snap lat lng
  | some points => save_complete_collection snap managerPresent lat lng points

/-- C9: for a non-empty point sequence (with the sensor manager running)
the stored and returned summary averages every numeric field over the
sequence and computes its AQI from the averaged pm25 and pm10; all points
are stored as collection rows. -/
theorem collection_average_before_aqi :
    ∀ (snap : Snapshot) (lat lng : ℚ) (points : List CollectPoint),
      points ≠ [] →
      save_complete_collection snap true lat lng points =
        CollectResult.ok
          ⟨calculate_aqi (mean (points.map (fun p => p.pm25)))
              (mean (points.map (fun p => p.pm10))),
            mean (points.map (fun p => p.pm25)),
            mean (points.map (fun p => p.pm10)),
            mean (points.map (fun p => p.temperature)),
            mean (points.map (fun p => p.humidity))⟩
          points := by
  intro snap lat lng points hne
  rw [save_complete_collection, if_neg (by simp [hne])]
  simp [mean]

/-- C9 witness: the theorem applied to a concrete two-point sequence; the
averages are (15, 30, 25, 55) and the AQI is
`calculate_aqi(15, 30) = max(56, 28) = 56`. -/
theorem collection_average_before_aqi_witness :
    ([(⟨10, 20, 24, 50⟩ : CollectPoint), ⟨20, 40, 26, 60⟩] ≠ ([] : List CollectPoint)) ∧
    save_complete_collection ⟨0, 0, 0, 0, 0⟩ true 13.01 74.79
        [⟨10, 20, 24, 50⟩, ⟨20, 40, 26, 60⟩]
      = CollectResult.ok ⟨56, 15, 30, 25, 55⟩ [⟨10, 20, 24, 50⟩, ⟨20, 40, 26, 60⟩] := by
  constructor
  · simp
  · have h := collection_average_before_aqi ⟨0, 0, 0, 0, 0⟩ 13.01 74.79
      [⟨10, 20, 24, 50⟩, ⟨20, 40, 26, 60⟩] (by simp)
    rw [h]
    have h25 : mean (([⟨10, 20, 24, 50⟩, ⟨20, 40, 26, 60⟩] :
        List CollectPoint).map (fun p => p.pm25)) = 15 := by
      norm_num [mean]
    have h10 : mean (([⟨10, 20, 24, 50⟩, ⟨20, 40, 26, 60⟩] :
        List CollectPoint).map (fun p => p.pm10)) = 30 := by
      norm_num [mean]
    have ht : mean (([⟨10, 20, 24, 50⟩, ⟨20, 40, 26, 60⟩] :
        List CollectPoint).map (fun p => p.temperature)) = 25 := by
      norm_num [mean]
    have hh : mean (([⟨10, 20, 24, 50⟩, ⟨20, 40, 26, 60⟩] :
        List CollectPoint).map (fun p => p.humidity)) = 55 := by
      norm_num [mean]
    rw [h25, h10, ht, hh]
    have haqi : calculate_aqi 15 30 = 56 := by
      norm_num [calculate_aqi, calc_aqi_pm25, calc_aqi_pm10, aqiPm25Seg1,
        aqiPm25Seg2, aqiPm10Seg1, roundEven]
    rw [haqi]

/-- C10: a present-but-empty `collectionData` is handled exactly like an
absent one — the live snapshot is validated, stored and returned by the
simple path, and no collection rows are written. -/
theorem empty_collection_falls_back_simple :
    ∀ (snap : Snapshot) (managerPresent : Bool) (lat lng : ℚ),
      collect_data snap managerPresent lat lng (some []) =
        collect_data snap managerPresent lat lng none ∧
      collect_data snap managerPresent lat lng (some []) =
        save_simple_collection snap lat lng ∧
      (inBounds lat lng →
        collect_data snap managerPresent lat lng (some []) =
          CollectResult.ok
            ⟨snap.aqi, snap.pm25, snap.pm10, snap.temp, snap.humidity⟩ []) := by
  intro snap mp lat lng
  refine ⟨?_, ?_, ?_⟩
  · simp [collect_data, save_complete_collection]
  · simp [collect_data, save_complete_collection]
  · intro hb
    simp [collect_data, save_complete_collection, save_simple_collection, hb]

/-- C10 witness: the theorem applied at a concrete in-bounds snapshot and
location. -/
theorem empty_collection_falls_back_simple_witness :
    collect_data ⟨12, 25, 26, 55, 47⟩ true 13.01 74.79 (some []) =
      collect_data ⟨12, 25, 26, 55, 47⟩ true 13.01 74.79 none ∧
    inBounds 13.01 74.79 ∧
    collect_data ⟨12, 25, 26, 55, 47⟩ true 13.01 74.79 (some []) =
      CollectResult.ok ⟨47, 12, 25, 26, 55⟩ [] :=
  ⟨(empty_collection_falls_back_simple ⟨12, 25, 26, 55, 47⟩ true 13.01 74.79).1,
   by norm_num [inBounds],
   (empty_collection_falls_back_simple ⟨12, 25, 26, 55, 47⟩ true 13.01 74.79).2.2
     (by norm_num [inBounds])⟩
